import Mathlib

/-!
# Verification of the Reddit-QnA-to-Notion MCP server core

Shallow embedding of `reddit_qa_to_notion_mcp.py`.  The server's four tool
functions call two third-party HTTP clients (a Reddit read client and the
Notion pages endpoint); here those upstream interactions are passed in as
explicit inputs (a listing stream for Reddit, an `Except` outcome for the
Notion POST) and the pure request/response mapping of each tool is embedded
faithfully, statement by statement.

Conventions:
* Python strings are `String`; `str[:n]` is `String.take` for `0 ≤ n`
  (`pyTake` handles general slice bounds for lists).
* `os.getenv` results are `Option String`; Python truthiness of such a value
  (`not x`) is `pyTruthy` (`none` and `some ""` are falsy).
* A raised Python exception is a `PyExc` value: `str(e)`, `type(e).__name__`,
  and the optional attached HTTP response (`hasattr(e, 'response')`).
* JSON-shaped Python dicts are `JVal.dict` association lists in insertion
  order, mirroring the dict literals of the source.
-/

set_option autoImplicit false
set_option linter.unusedVariables false
set_option maxRecDepth 20000

namespace RedditNotion

/-- Python truthiness of an `os.getenv` result: `None` and `""` are falsy. -/
def pyTruthy : Option String → Bool
  | none => false
  | some s => s ≠ ""

/-- Python `a or b` on two `os.getenv` results: returns `a` when truthy,
otherwise `b` (which may itself be `None`). -/
def pyOr (a b : Option String) : Option String :=
  if pyTruthy a then a else b

/-- Python list slice `xs[:n]` for an `int` bound `n`: for `0 ≤ n` it takes the
first `n` elements, for `n < 0` it drops the last `-n` elements. -/
def pyTake {α : Type} (n : Int) (xs : List α) : List α :=
  if 0 ≤ n then xs.take n.toNat else xs.take (xs.length - (-n).toNat)

/-- A node of a PRAW comment tree as materialized for a submission: either a
real comment with a body and a list of replies, or a `MoreComments`
placeholder ("load more"), which carries no materialized children. -/
inductive CNode where
  | comment (body : String) (replies : List CNode)
  | more

/-- Total number of nodes in a comment forest (termination measure). -/
def sizeF : List CNode → Nat
  | [] => 0
  | CNode.comment _ rs :: rest => 1 + sizeF rs + sizeF rest
  | CNode.more :: rest => 1 + sizeF rest

theorem sizeF_append (a b : List CNode) : sizeF (a ++ b) = sizeF a + sizeF b := by
  induction a with
  | nil => simp [sizeF]
  | cons x t ih => cases x <;> simp [sizeF, ih] <;> omega

/-- `comment_forest.replace_more(limit=0)`: removes every `MoreComments`
placeholder at every depth without fetching anything, keeping the remaining
comments in order. -/
def replaceMore0 : List CNode → List CNode
  | [] => []
  | CNode.more :: rest => replaceMore0 rest
  | CNode.comment b rs :: rest => CNode.comment b (replaceMore0 rs) :: replaceMore0 rest

/-- The materialized replies a node contributes to PRAW's flattening queue
(a placeholder contributes none). -/
def nodeChildren : CNode → List CNode
  | CNode.comment _ rs => rs
  | CNode.more => []

/-- `comment_forest.list()`: PRAW's queue-based breadth-first flattening.
It pops the front node, emits it, and enqueues its replies at the back. -/
def commentForestList : List CNode → List CNode
  | [] => []
  | c :: queue => c :: commentForestList (queue ++ nodeChildren c)
termination_by q => sizeF q
decreasing_by
  cases c <;> (simp [sizeF, nodeChildren, sizeF_append]; try omega)

/-- `comment.body` of a flattened node (a placeholder has no body attribute;
this arm is unreachable after `replace_more(limit=0)`). -/
def nodeBody : CNode → String
  | CNode.comment b _ => b
  | CNode.more => ""

/-- Bodies of the top-level comments of a forest, skipping placeholders. -/
def levelBodies : List CNode → List String
  | [] => []
  | CNode.comment b _ :: rest => b :: levelBodies rest
  | CNode.more :: rest => levelBodies rest

/-- Concatenated replies of the top-level nodes of a forest, in order. -/
def levelChildren : List CNode → List CNode
  | [] => []
  | CNode.comment _ rs :: rest => rs ++ levelChildren rest
  | CNode.more :: rest => levelChildren rest

/-- Generalized queue invariant for the breadth-first flattening: the queue's
current contents are emitted first, then flattening continues on the pending
tail extended with their children. -/
theorem commentForestList_append (q extra : List CNode) :
    commentForestList (q ++ extra) =
      q ++ commentForestList (extra ++ levelChildren q) := by
  induction q generalizing extra with
  | nil => simp [levelChildren]
  | cons c t ih =>
      cases c with
      | comment b rs =>
          rw [List.cons_append]
          simp only [commentForestList, nodeChildren, levelChildren]
          rw [List.append_assoc, ih (extra ++ rs)]
          simp [List.append_assoc]
      | more =>
          rw [List.cons_append]
          simp only [commentForestList, nodeChildren, levelChildren]
          rw [List.append_nil, ih extra]
          simp

/-- Breadth-first flattening emits the whole top level first, then the deeper
levels: top-level comments always precede any reply. -/
theorem commentForestList_levels (f : List CNode) :
    commentForestList f = f ++ commentForestList (levelChildren f) := by
  have h := commentForestList_append f []
  simpa using h

theorem replaceMore0_more (rest : List CNode) :
    replaceMore0 (CNode.more :: rest) = replaceMore0 rest := by
  simp [replaceMore0]

/-- After placeholder removal, the top level of the forest maps onto exactly
the bodies of the original top-level comments, in order. -/
theorem map_nodeBody_replaceMore0 (f : List CNode) :
    (replaceMore0 f).map nodeBody = levelBodies f := by
  induction f with
  | nil => simp [replaceMore0, levelBodies]
  | cons c t ih =>
      cases c with
      | comment b rs => simp [replaceMore0, levelBodies, nodeBody, ih]
      | more => simp [replaceMore0, levelBodies, ih]

/-- A JSON-shaped Python value, as returned by the tool functions.  Dicts are
association lists in insertion order. -/
inductive JVal where
  | s (v : String)
  | i (v : Int)
  | b (v : Bool)
  | list (vs : List JVal)
  | dict (kvs : List (String × JVal))

/-- Dict key lookup (`d.get(k)` / `d[k]` presence): first binding wins. -/
def jget (kvs : List (String × JVal)) (k : String) : Option JVal :=
  match kvs with
  | [] => none
  | (key, v) :: rest => if key = k then some v else jget rest k

mutual

/-- All strings occurring in a value (dict keys and string leaves). -/
def jstrings : JVal → List String
  | JVal.s v => [v]
  | JVal.i _ => []
  | JVal.b _ => []
  | JVal.list vs => jstringsList vs
  | JVal.dict kvs => jstringsDict kvs

/-- Strings of a list of values. -/
def jstringsList : List JVal → List String
  | [] => []
  | v :: rest => jstrings v ++ jstringsList rest

/-- Strings of a dict: each key followed by the strings of its value. -/
def jstringsDict : List (String × JVal) → List String
  | [] => []
  | (k, v) :: rest => k :: (jstrings v ++ jstringsDict rest)

end

/-- Whether `needle` occurs as a substring anywhere in the value: in a string
leaf or in a dict key, at any depth. -/
def jmentions (needle : String) (v : JVal) : Bool :=
  (jstrings v).any (fun s => decide (needle.toList <:+: s.toList))

/-- The HTTP response attached to an exception raised by the underlying
transport (`e.response`): status code, headers, body text. -/
structure HttpResponse where
  status_code : Int
  headers : List (String × String)
  text : String

/-- A raised Python exception as the handlers observe it: `str(e)`,
`type(e).__name__`, and the attached response when `hasattr(e, 'response')`. -/
structure PyExc where
  msg : String
  excName : String
  response : Option HttpResponse

/-- The long-lived Reddit client state read by the error handlers:
`reddit.read_only` and `reddit.config.client_id` (an env value). -/
structure RedditEnv where
  read_only : Bool
  client_id : Option String

/-- An upstream submission as PRAW yields it from a listing: the attributes
the loop body reads, plus the materialized comment forest. -/
structure UpPost where
  title : String
  selftext : String
  url : String
  created_utc : Int
  num_comments : Int
  permalink : String
  comments : List CNode

/-- The `RedditPost` pydantic model of the source. -/
structure RedditPost where
  title : String
  body : String
  url : String
  created_utc : Int
  num_comments : Int
  permalink : String
  comments : List String

/-- The loop body shared by the three fetch tools: build the `RedditPost`
record from a yielded submission, with
`post.comments.replace_more(limit=0)` followed by
`post.comments.list()[:comment_limit]` bodies. -/
def buildPost (comment_limit : Int) (p : UpPost) : RedditPost :=
  { title := p.title
    body := p.selftext
    url := p.url
    created_utc := p.created_utc
    num_comments := p.num_comments
    permalink := "https://reddit.com" ++ p.permalink
    comments := pyTake comment_limit
      ((commentForestList (replaceMore0 p.comments)).map nodeBody) }

/-- `post_data.model_dump()`: the record as a dict in field order. -/
def postDump (p : RedditPost) : JVal :=
  JVal.dict
    [ ("title", JVal.s p.title)
    , ("body", JVal.s p.body)
    , ("url", JVal.s p.url)
    , ("created_utc", JVal.i p.created_utc)
    , ("num_comments", JVal.i p.num_comments)
    , ("permalink", JVal.s p.permalink)
    , ("comments", JVal.list (p.comments.map JVal.s)) ]

/-- One step of iterating an upstream listing: either the iterator yields a
submission, or an exception is raised at that point (during listing
iteration, post attribute access, or comment-tree materialization — all
abort the loop identically). -/
abbrev ListingItem := Except PyExc UpPost

/-- The `for post in listing` loop of the fetch tools over the (already
limit-truncated) iterated items: collects records until an exception
aborts the whole call. -/
def processListing (comment_limit : Int) : List ListingItem → Except PyExc (List RedditPost)
  | [] => Except.ok []
  | Except.error e :: _ => Except.error e
  | Except.ok p :: rest =>
      match processListing comment_limit rest with
      | Except.error e => Except.error e
      | Except.ok ps => Except.ok (buildPost comment_limit p :: ps)

/-- The HTTP enrichment of an error-details dict: present exactly when the
exception carries a response — status code, headers dict, first 500
characters of the body. -/
def httpDetails (e : PyExc) : List (String × JVal) :=
  match e.response with
  | none => []
  | some r =>
      [ ("http_status", JVal.i r.status_code)
      , ("response_headers", JVal.dict (r.headers.map (fun kv => (kv.1, JVal.s kv.2))))
      , ("response_body", JVal.s (r.text.take 500)) ]

/-- The `error_details` dict built by the `get_top_subreddit_posts`
exception handler. -/
def topErrorDetails (env : RedditEnv) (subreddits time_filter : String) (e : PyExc) :
    List (String × JVal) :=
  [ ("error", JVal.s e.msg)
  , ("error_type", JVal.s e.excName)
  , ("subreddits", JVal.s subreddits)
  , ("time_filter", JVal.s time_filter)
  , ("reddit_read_only", JVal.b env.read_only)
  , ("client_id_exists", JVal.b (pyTruthy env.client_id)) ] ++ httpDetails e

/-- The error record `get_top_subreddit_posts` returns instead of raising. -/
def topErrorRecord (env : RedditEnv) (subreddits time_filter : String) (e : PyExc) : JVal :=
  JVal.dict
    [ ("error_details", JVal.dict (topErrorDetails env subreddits time_filter e))
    , ("message", JVal.s ("Top posts retrieval failed for r/" ++ subreddits ++ ": " ++ e.msg))
    , ("debug_info", JVal.s "Check error_details for Reddit API response information") ]

/-- The `error_details` dict built by the `search_posts` exception handler
(note: it records the subreddits but not the query). -/
def searchPostsErrorDetails (env : RedditEnv) (subreddits : String) (e : PyExc) :
    List (String × JVal) :=
  [ ("error", JVal.s e.msg)
  , ("error_type", JVal.s e.excName)
  , ("subreddits", JVal.s subreddits)
  , ("reddit_read_only", JVal.b env.read_only)
  , ("client_id_exists", JVal.b (pyTruthy env.client_id)) ] ++ httpDetails e

/-- The error record `search_posts` returns instead of raising. -/
def searchPostsErrorRecord (env : RedditEnv) (subreddits : String) (e : PyExc) : JVal :=
  JVal.dict
    [ ("error_details", JVal.dict (searchPostsErrorDetails env subreddits e))
    , ("message", JVal.s ("Subreddit search failed for r/" ++ subreddits ++ ": " ++ e.msg))
    , ("debug_info", JVal.s "Check error_details for Reddit API response information") ]

/-- The `error_details` dict built by the `search_reddit` exception handler
(note: it records neither the query nor any subreddit). -/
def searchRedditErrorDetails (env : RedditEnv) (e : PyExc) : List (String × JVal) :=
  [ ("error", JVal.s e.msg)
  , ("error_type", JVal.s e.excName)
  , ("reddit_read_only", JVal.b env.read_only)
  , ("client_id_exists", JVal.b (pyTruthy env.client_id)) ] ++ httpDetails e

/-- The error record `search_reddit` returns instead of raising. -/
def searchRedditErrorRecord (env : RedditEnv) (e : PyExc) : JVal :=
  JVal.dict
    [ ("error_details", JVal.dict (searchRedditErrorDetails env e))
    , ("message", JVal.s ("Reddit search failed: " ++ e.msg))
    , ("debug_info", JVal.s "Check error_details for Reddit API response information") ]

/-- `get_top_subreddit_posts(subreddits, limit, comment_limit, time_filter)`.
`listing` is the raw upstream stream behind
`subreddit.top(time_filter=time_filter, limit=limit)`; PRAW's
`ListingGenerator` yields at most `limit` items (and none for a
non-positive limit), hence the `take limit.toNat`. -/
def get_top_subreddit_posts (env : RedditEnv) (listing : List ListingItem)
    (subreddits : String) (limit comment_limit : Int) (time_filter : String) : List JVal :=
  match processListing comment_limit (listing.take limit.toNat) with
  | Except.ok posts => posts.map postDump
  | Except.error e => [topErrorRecord env subreddits time_filter e]

/-- `search_posts(subreddits, query, limit, comment_limit, sort)`.  `listing`
is the stream behind `subreddit.search(query, sort=sort, limit=limit)`. -/
def search_posts (env : RedditEnv) (listing : List ListingItem)
    (subreddits query : String) (limit comment_limit : Int) (sort : String) : List JVal :=
  match processListing comment_limit (listing.take limit.toNat) with
  | Except.ok posts => posts.map postDump
  | Except.error e => [searchPostsErrorRecord env subreddits e]

/-- `search_reddit(query, limit, comment_limit, sort)`.  `listing` is the
stream behind `reddit.subreddit("all").search(query, sort=sort, limit=limit)`. -/
def search_reddit (env : RedditEnv) (listing : List ListingItem)
    (query : String) (limit comment_limit : Int) (sort : String) : List JVal :=
  match processListing comment_limit (listing.take limit.toNat) with
  | Except.ok posts => posts.map postDump
  | Except.error e => [searchRedditErrorRecord env e]

/-- The `AccessToken` the verifier returns on success. -/
structure AccessToken where
  token : String
  client_id : String
  scopes : List String
  expires_at : Option Int

/-- `SimpleTokenVerifier.verify_token`: `valid_token` is the `MCP_API_KEY`
env value captured at construction.  The guard
`if not self.valid_token or token != self.valid_token` rejects when the
configured key is absent or empty (falsy) or when the presented token
differs from it. -/
def verify_token (valid_token : Option String) (token : String) : Option AccessToken :=
  if ¬ pyTruthy valid_token ∨ valid_token ≠ some token then
    none
  else
    some { token := token
           client_id := "single_user"
           scopes := ["reddit:read", "notion:write"]
           expires_at := none }

/-- The Notion-related env values read by `save_reddit_qa_to_notion`. -/
structure NotionEnv where
  notion_qa_database_id : Option String
  notion_database_id : Option String
  notion_api_token : Option String

/-- Line 289: `os.getenv("NOTION_QA_DATABASE_ID") or os.getenv("NOTION_DATABASE_ID")`. -/
def resolve_database_id (env : NotionEnv) : Option String :=
  pyOr env.notion_qa_database_id env.notion_database_id

/-- `source.get(key, default)` on a `Dict[str, str]` source entry. -/
def pyGet (d : List (String × String)) (k dflt : String) : String :=
  match d.lookup k with
  | some v => v
  | none => dflt

/-- One rendered line of the sources block:
`f"{i}. [{source.get('title', 'Untitled')}]({source.get('url', '#')})\n"`. -/
def sourceLine (i : Nat) (source : List (String × String)) : String :=
  toString i ++ ". [" ++ pyGet source "title" "Untitled" ++ "](" ++
    pyGet source "url" "#" ++ ")\n"

/-- The accumulation loop
`for i, source in enumerate(reddit_sources, 1): sources_text += ...`,
carried out from counter value `i` with accumulator `acc`. -/
def sourcesTextFrom (i : Nat) (srcs : List (List (String × String))) (acc : String) : String :=
  match srcs with
  | [] => acc
  | source :: rest => sourcesTextFrom (i + 1) rest (acc ++ sourceLine i source)

/-- The complete `sources_text` built at lines 298-300. -/
def sourcesText (reddit_sources : List (List (String × String))) : String :=
  sourcesTextFrom 1 reddit_sources ""

/-- The `page_data` payload of the Notion page-creation request
(lines 309-346); `now` is `datetime.now().isoformat()`. -/
def pageData (database_id question answer search_query sources_text now : String) : JVal :=
  JVal.dict
    [ ("parent", JVal.dict [("database_id", JVal.s database_id)])
    , ("properties", JVal.dict
        [ ("Question", JVal.dict
            [("title", JVal.list
              [JVal.dict [("text", JVal.dict [("content", JVal.s question)])]])])
        , ("Answer", JVal.dict
            [("rich_text", JVal.list
              [JVal.dict [("text", JVal.dict [("content", JVal.s answer)])]])])
        , ("Search Query", JVal.dict
            [("rich_text", JVal.list
              [JVal.dict [("text", JVal.dict [("content", JVal.s search_query)])]])])
        , ("Reddit Sources", JVal.dict
            [("rich_text", JVal.list
              [JVal.dict [("text", JVal.dict [("content", JVal.s sources_text)])]])])
        , ("Created", JVal.dict
            [("date", JVal.dict [("start", JVal.s now)])]) ]) ]

/-- A POST issued through `requests.post(url, json=page_data, headers=headers)`. -/
structure NotionRequest where
  url : String
  headers : List (String × String)
  page_data : JVal

/-- The dict `save_reddit_qa_to_notion` returns: `ok` is the
`{"success": True, "message": ..., "question": ...}` dict, `err` the
`{"error": ...}` dict. -/
inductive SaveResult where
  | ok (message : String) (question : String)
  | err (error : String)

/-- `save_reddit_qa_to_notion(question, answer, search_query, reddit_sources)`.
`net` is the outcome of `requests.post` when it is reached (a response, or a
raised transport exception); `now` is `datetime.now().isoformat()`.  Returns
the result dict together with the list of network requests actually issued,
so that "zero network calls" is observable. -/
def save_reddit_qa_to_notion (env : NotionEnv) (now : String)
    (net : Except PyExc HttpResponse)
    (question answer search_query : String)
    (reddit_sources : List (List (String × String))) :
    SaveResult × List NotionRequest :=
  let database_id := resolve_database_id env
  if ¬ pyTruthy database_id then
    (SaveResult.err "NOTION_QA_DATABASE_ID or NOTION_DATABASE_ID environment variable not set", [])
  else if ¬ pyTruthy env.notion_api_token then
    (SaveResult.err "NOTION_API_TOKEN environment variable not set", [])
  else
    let api_token := env.notion_api_token.getD ""
    let sources_text := sourcesText reddit_sources
    let url_endpoint := "https://api.notion.com/v1/pages"
    let headers :=
      [ ("Authorization", "Bearer " ++ api_token)
      , ("Content-Type", "application/json")
      , ("Notion-Version", "2022-06-28") ]
    let page_data :=
      pageData (database_id.getD "") question answer search_query sources_text now
    let req : NotionRequest :=
      { url := url_endpoint, headers := headers, page_data := page_data }
    match net with
    | Except.error e =>
        (SaveResult.err ("Error saving Q&A to Notion: " ++ e.msg), [req])
    | Except.ok response =>
        if response.status_code = 200 then
          (SaveResult.ok "Successfully saved Q&A session to Notion"
            (if question.length > 50 then question.take 50 ++ "..." else question), [req])
        else
          (SaveResult.err ("Failed to save to Notion: " ++ toString response.status_code ++
            " - " ++ response.text), [req])

/-! ## Lemmas about the fetch loop -/

/-- A listing that yields only submissions is processed to the full list of
built records, in order. -/
theorem processListing_map_ok (cl : Int) (ups : List UpPost) :
    processListing cl (ups.map Except.ok) = Except.ok (ups.map (buildPost cl)) := by
  induction ups with
  | nil => simp [processListing]
  | cons p rest ih => simp [processListing, ih]

/-- An exception raised after any number of successfully yielded submissions
aborts the loop with that exception. -/
theorem processListing_error_after_ok (cl : Int) (good : List UpPost) (e : PyExc)
    (rest : List ListingItem) :
    processListing cl (good.map Except.ok ++ Except.error e :: rest) = Except.error e := by
  induction good with
  | nil => simp [processListing]
  | cons p t ih => simp [processListing, ih]

/-! ## Claim theorems -/

/-- C1: for each of the three Reddit fetch operations, an exception raised at
any point of the iteration (after any number of successfully processed
posts) is caught and the operation returns the one-element list holding the
error record built from that exception; the partially collected posts are
discarded, and no exception propagates (the operations are total functions
into `List JVal`). -/
theorem fetch_error_returns_single_record
    (env : RedditEnv) (listing : List ListingItem)
    (subreddits query time_filter sort : String) (limit comment_limit : Int)
    (good : List UpPost) (e : PyExc) (rest : List ListingItem)
    (h : listing.take limit.toNat = good.map Except.ok ++ Except.error e :: rest) :
    get_top_subreddit_posts env listing subreddits limit comment_limit time_filter
        = [topErrorRecord env subreddits time_filter e]
      ∧ search_posts env listing subreddits query limit comment_limit sort
        = [searchPostsErrorRecord env subreddits e]
      ∧ search_reddit env listing query limit comment_limit sort
        = [searchRedditErrorRecord env e] := by
  have hp : processListing comment_limit (listing.take limit.toNat) = Except.error e := by
    rw [h]
    exact processListing_error_after_ok comment_limit good e rest
  refine ⟨?_, ?_, ?_⟩ <;>
    simp [get_top_subreddit_posts, search_posts, search_reddit, hp]

/-- Witness for C1 at a concrete input: a listing whose first iteration step
raises, with `limit = 5`. -/
theorem fetch_error_returns_single_record_witness :
    get_top_subreddit_posts ⟨false, some "cid"⟩ [Except.error ⟨"boom", "ServerError", none⟩]
        "python" 5 5 "week"
      = [topErrorRecord ⟨false, some "cid"⟩ "python" "week" ⟨"boom", "ServerError", none⟩] :=
  (fetch_error_returns_single_record ⟨false, some "cid"⟩
    [Except.error ⟨"boom", "ServerError", none⟩] "python" "q" "week" "relevance" 5 5
    [] ⟨"boom", "ServerError", none⟩ [] rfl).1

/-- C2: on a successful call (the upstream listing yields only submissions)
with non-negative `limit` and `comment_limit`, each operation returns the
records of the first `limit` submissions in upstream order, so the result
holds at most `limit` posts; every record's comments list has length at most
`comment_limit` and is a prefix of the flattened upstream comment sequence
(no re-sorting). -/
theorem fetch_success_bounds
    (env : RedditEnv) (ups : List UpPost)
    (subreddits query time_filter sort : String) (limit comment_limit : Int)
    (hl : 0 ≤ limit) (hc : 0 ≤ comment_limit) :
    get_top_subreddit_posts env (ups.map Except.ok) subreddits limit comment_limit time_filter
        = (ups.take limit.toNat).map (fun p => postDump (buildPost comment_limit p))
      ∧ search_posts env (ups.map Except.ok) subreddits query limit comment_limit sort
        = (ups.take limit.toNat).map (fun p => postDump (buildPost comment_limit p))
      ∧ search_reddit env (ups.map Except.ok) query limit comment_limit sort
        = (ups.take limit.toNat).map (fun p => postDump (buildPost comment_limit p))
      ∧ ((get_top_subreddit_posts env (ups.map Except.ok) subreddits limit comment_limit
            time_filter).length : Int) ≤ limit
      ∧ ∀ p ∈ ups.take limit.toNat,
          ((buildPost comment_limit p).comments.length : Int) ≤ comment_limit
            ∧ (buildPost comment_limit p).comments <+:
                (commentForestList (replaceMore0 p.comments)).map nodeBody := by
  have htake : ((ups.map Except.ok : List ListingItem)).take limit.toNat
      = (ups.take limit.toNat).map Except.ok := by
    simp [List.map_take]
  have hp : processListing comment_limit ((ups.map Except.ok : List ListingItem).take limit.toNat)
      = Except.ok ((ups.take limit.toNat).map (buildPost comment_limit)) := by
    rw [htake]
    exact processListing_map_ok comment_limit (ups.take limit.toNat)
  have hmain : ∀ r : List JVal,
      r = (ups.take limit.toNat).map (fun p => postDump (buildPost comment_limit p)) →
      (r.length : Int) ≤ limit := by
    intro r hr
    have h1 : r.length ≤ limit.toNat := by
      rw [hr]
      simp [List.length_take]
    omega
  refine ⟨?_, ?_, ?_, ?_, ?_⟩
  · simp [get_top_subreddit_posts, hp]
    try rfl
  · simp [search_posts, hp]
    try rfl
  · simp [search_reddit, hp]
    try rfl
  · refine hmain _ ?_
    simp [get_top_subreddit_posts, hp]
    try rfl
  · intro p hp2
    constructor
    · have h1 : (buildPost comment_limit p).comments.length ≤ comment_limit.toNat := by
        simp [buildPost, pyTake, if_pos hc, List.length_take]
      omega
    · have h2 : (buildPost comment_limit p).comments
          = ((commentForestList (replaceMore0 p.comments)).map nodeBody).take
              comment_limit.toNat := by
        simp [buildPost, pyTake, if_pos hc]
      rw [h2]
      exact List.take_prefix _ _

/-- Witness for C2 at a concrete input: two upstream posts, `limit = 1`,
`comment_limit = 1`, a comment tree with a reply and a placeholder. -/
theorem fetch_success_bounds_witness :
    ((0 : Int) ≤ 1 ∧ (0 : Int) ≤ 1)
      ∧ ((get_top_subreddit_posts ⟨false, some "cid"⟩
            ([⟨"T", "B", "http://u", 100, 2, "/r/x/1",
                [CNode.comment "c1" [CNode.comment "r1" []], CNode.more]⟩,
              ⟨"T2", "", "http://v", 101, 0, "/r/x/2", []⟩].map Except.ok)
            "python" 1 1 "week").length : Int) ≤ 1 :=
  ⟨⟨by decide, by decide⟩,
    (fetch_success_bounds ⟨false, some "cid"⟩
      [⟨"T", "B", "http://u", 100, 2, "/r/x/1",
          [CNode.comment "c1" [CNode.comment "r1" []], CNode.more]⟩,
        ⟨"T2", "", "http://v", 101, 0, "/r/x/2", []⟩]
      "python" "q" "week" "relevance" 1 1 (by decide) (by decide)).2.2.2.1⟩

/-- C3: with the configuration present, `save_reddit_qa_to_notion` returns the
success dict if and only if the Notion page-creation response has status code
exactly 200; for any other status it returns the error dict carrying the
status code and the raw response body, and a transport exception is caught
and converted to an error dict (never propagated: the operation is a total
function into `SaveResult`). -/
theorem save_status_200_iff (env : NotionEnv) (now : String)
    (net : Except PyExc HttpResponse) (question answer search_query : String)
    (reddit_sources : List (List (String × String)))
    (hdb : pyTruthy (resolve_database_id env) = true)
    (htok : pyTruthy env.notion_api_token = true) :
    ((∃ m q, (save_reddit_qa_to_notion env now net question answer search_query
        reddit_sources).1 = SaveResult.ok m q)
      ↔ (∃ r, net = Except.ok r ∧ r.status_code = 200))
    ∧ (∀ r, net = Except.ok r → r.status_code ≠ 200 →
        (save_reddit_qa_to_notion env now net question answer search_query
          reddit_sources).1
        = SaveResult.err ("Failed to save to Notion: " ++ toString r.status_code ++
            " - " ++ r.text))
    ∧ (∀ ex, net = Except.error ex →
        (save_reddit_qa_to_notion env now net question answer search_query
          reddit_sources).1
        = SaveResult.err ("Error saving Q&A to Notion: " ++ ex.msg)) := by
  refine ⟨?_, ?_, ?_⟩
  · constructor
    · rintro ⟨m, q, hmq⟩
      cases net with
      | error ex => simp [save_reddit_qa_to_notion, hdb, htok] at hmq
      | ok r =>
          by_cases hr : r.status_code = 200
          · exact ⟨r, rfl, hr⟩
          · simp [save_reddit_qa_to_notion, hdb, htok, hr] at hmq
    · rintro ⟨r, hnet, hr⟩
      subst hnet
      refine ⟨"Successfully saved Q&A session to Notion",
        if question.length > 50 then question.take 50 ++ "..." else question, ?_⟩
      simp [save_reddit_qa_to_notion, hdb, htok, hr]
  · intro r hnet hr
    subst hnet
    simp [save_reddit_qa_to_notion, hdb, htok, hr]
  · intro ex hnet
    subst hnet
    simp [save_reddit_qa_to_notion, hdb, htok]

/-- Witness for C3 at concrete inputs: a 200 response succeeds, a 400 response
yields the error dict carrying "400" and the body. -/
theorem save_status_200_iff_witness :
    (∃ m q, (save_reddit_qa_to_notion ⟨some "db", none, some "tok"⟩ "2025-01-01"
        (Except.ok ⟨200, [], "ok body"⟩) "Q" "A" "S" []).1 = SaveResult.ok m q)
    ∧ (save_reddit_qa_to_notion ⟨some "db", none, some "tok"⟩ "2025-01-01"
        (Except.ok ⟨400, [], "bad request"⟩) "Q" "A" "S" []).1
      = SaveResult.err "Failed to save to Notion: 400 - bad request" :=
  ⟨(save_status_200_iff ⟨some "db", none, some "tok"⟩ "2025-01-01"
      (Except.ok ⟨200, [], "ok body"⟩) "Q" "A" "S" [] (by decide) (by decide)).1.mpr
      ⟨⟨200, [], "ok body"⟩, rfl, rfl⟩,
    by
      have h := (save_status_200_iff ⟨some "db", none, some "tok"⟩ "2025-01-01"
        (Except.ok ⟨400, [], "bad request"⟩) "Q" "A" "S" [] (by decide) (by decide)).2.1
        ⟨400, [], "bad request"⟩ rfl (by decide)
      simpa using h⟩

/-- C4: when no database id or no API token is resolvable from the
environment, `save_reddit_qa_to_notion` returns the corresponding
missing-configuration error immediately and issues zero network requests. -/
theorem save_missing_config_no_network (env : NotionEnv) (now : String)
    (net : Except PyExc HttpResponse) (question answer search_query : String)
    (reddit_sources : List (List (String × String))) :
    (pyTruthy (resolve_database_id env) = false →
      save_reddit_qa_to_notion env now net question answer search_query reddit_sources
        = (SaveResult.err
            "NOTION_QA_DATABASE_ID or NOTION_DATABASE_ID environment variable not set", []))
    ∧ (pyTruthy (resolve_database_id env) = true →
        pyTruthy env.notion_api_token = false →
        save_reddit_qa_to_notion env now net question answer search_query reddit_sources
          = (SaveResult.err "NOTION_API_TOKEN environment variable not set", [])) := by
  constructor
  · intro hdb
    simp [save_reddit_qa_to_notion, hdb]
  · intro hdb htok
    simp [save_reddit_qa_to_notion, hdb, htok]

/-- Witness for C4 at concrete inputs: with nothing configured no request is
issued, and with only a database id configured the token error is returned
with no request issued. -/
theorem save_missing_config_no_network_witness :
    save_reddit_qa_to_notion ⟨none, none, none⟩ "2025-01-01"
        (Except.ok ⟨200, [], "unreached"⟩) "Q" "A" "S" []
      = (SaveResult.err
          "NOTION_QA_DATABASE_ID or NOTION_DATABASE_ID environment variable not set", [])
    ∧ save_reddit_qa_to_notion ⟨none, some "db", none⟩ "2025-01-01"
        (Except.ok ⟨200, [], "unreached"⟩) "Q" "A" "S" []
      = (SaveResult.err "NOTION_API_TOKEN environment variable not set", []) :=
  ⟨(save_missing_config_no_network ⟨none, none, none⟩ "2025-01-01"
      (Except.ok ⟨200, [], "unreached"⟩) "Q" "A" "S" []).1 (by decide),
    (save_missing_config_no_network ⟨none, some "db", none⟩ "2025-01-01"
      (Except.ok ⟨200, [], "unreached"⟩) "Q" "A" "S" []).2 (by decide) (by decide)⟩

theorem string_join_cons (s : String) (l : List String) :
    String.join (s :: l) = s ++ String.join l := by
  apply String.ext
  simp [String.join_eq]

/-- The accumulation loop for the sources block equals a 1-based enumerated
render: accumulator out front, one line per source with the running index. -/
theorem sourcesTextFrom_eq (srcs : List (List (String × String))) :
    ∀ (i : Nat) (acc : String),
      sourcesTextFrom i srcs acc
        = acc ++ String.join ((List.enumFrom i srcs).map (fun p => sourceLine p.1 p.2)) := by
  induction srcs with
  | nil => intro i acc; simp [sourcesTextFrom, String.join]
  | cons source rest ih =>
      intro i acc
      rw [sourcesTextFrom, ih (i + 1)]
      simp only [List.enumFrom, List.map_cons, string_join_cons]
      rw [String.append_assoc]

/-- C5: the sources block is rendered as one numbered line per source, in
input order, the `i`-th line (1-based) being `"i. [title](url)"` with the
`"Untitled"` / `"#"` fallbacks, each line terminated by a newline; in
particular the two-source example renders exactly as the spec states. -/
theorem sources_block_rendering (reddit_sources : List (List (String × String))) :
    sourcesText reddit_sources
      = String.join ((List.enumFrom 1 reddit_sources).map
          (fun p => toString p.1 ++ ". [" ++ pyGet p.2 "title" "Untitled" ++ "](" ++
            pyGet p.2 "url" "#" ++ ")\n"))
    ∧ sourcesText [[("title", "A"), ("url", "http://x")], []]
      = "1. [A](http://x)\n2. [Untitled](#)\n" := by
  constructor
  · have h := sourcesTextFrom_eq reddit_sources 1 ""
    simpa [sourcesText, sourceLine] using h
  · rfl

/-- C8: the token verifier accepts (returns the single-user access token)
exactly when a non-empty key is configured and the presented token equals it
byte-for-byte; on mismatch, or with no (or an empty) configured key, it
returns `None`.  (`pyTruthy valid_token` is the code's own notion of "a
secret is configured": the constructor warns that authentication will fail
when `MCP_API_KEY` is unset or empty.) -/
theorem verify_token_contract (valid_token : Option String) (token : String) :
    (verify_token valid_token token ≠ none
      ↔ (pyTruthy valid_token = true ∧ valid_token = some token))
    ∧ (verify_token valid_token token ≠ none →
        verify_token valid_token token
          = some { token := token, client_id := "single_user",
                   scopes := ["reddit:read", "notion:write"], expires_at := none }) := by
  constructor
  · constructor
    · intro h
      by_cases h1 : pyTruthy valid_token = true
      · by_cases h2 : valid_token = some token
        · exact ⟨h1, h2⟩
        · simp [verify_token, h2] at h
      · simp [verify_token, h1] at h
    · rintro ⟨h1, h2⟩
      subst h2
      simp [verify_token, h1]
  · intro h
    by_cases h1 : pyTruthy valid_token = true
    · by_cases h2 : valid_token = some token
      · subst h2
        simp [verify_token, h1]
      · simp [verify_token, h2] at h
    · simp [verify_token, h1] at h

/-- Witness for C8 at concrete inputs: the matching token is accepted with the
single-user access token; a mismatching token, an unset key, and an empty key
are all rejected. -/
theorem verify_token_contract_witness :
    verify_token (some "k3y") "k3y"
      = some { token := "k3y", client_id := "single_user",
               scopes := ["reddit:read", "notion:write"], expires_at := none }
    ∧ verify_token (some "k3y") "wrong" = none
    ∧ verify_token none "k3y" = none
    ∧ verify_token (some "") "" = none :=
  ⟨(verify_token_contract (some "k3y") "k3y").2
      ((verify_token_contract (some "k3y") "k3y").1.mpr ⟨by decide, rfl⟩),
    rfl, rfl, rfl⟩

/-- C9: on the success path, the `question` field of the returned dict is the
input question when it has at most 50 characters, and otherwise the first 50
characters followed by `"..."` — so the echoed question is not always the
input string. -/
theorem save_question_echo (env : NotionEnv) (now : String) (r : HttpResponse)
    (question answer search_query : String)
    (reddit_sources : List (List (String × String)))
    (hdb : pyTruthy (resolve_database_id env) = true)
    (htok : pyTruthy env.notion_api_token = true)
    (hr : r.status_code = 200) :
    (save_reddit_qa_to_notion env now (Except.ok r) question answer search_query
        reddit_sources).1
      = SaveResult.ok "Successfully saved Q&A session to Notion"
          (if question.length ≤ 50 then question else question.take 50 ++ "...") := by
  simp only [save_reddit_qa_to_notion, hdb, htok, hr]
  by_cases hq : question.length ≤ 50
  · simp [hq, show ¬ 50 < question.length by omega]
  · simp [hq, show 50 < question.length by omega]

/-- Witness for C9 at concrete inputs: a short question is echoed verbatim; a
60-character question is truncated to its first 50 characters plus `"..."`,
which differs from the input. -/
theorem save_question_echo_witness :
    (save_reddit_qa_to_notion ⟨some "db", none, some "tok"⟩ "2025-01-01"
        (Except.ok ⟨200, [], "ok"⟩) "short question" "A" "S" []).1
      = SaveResult.ok "Successfully saved Q&A session to Notion" "short question"
    ∧ (save_reddit_qa_to_notion ⟨some "db", none, some "tok"⟩ "2025-01-01"
        (Except.ok ⟨200, [], "ok"⟩)
        "aaaaaaaaaaaaaaaaaaaaaaaaaaaaaaaaaaaaaaaaaaaaaaaaaabbbbbbbbb" "A" "S" []).1
      = SaveResult.ok "Successfully saved Q&A session to Notion"
          "aaaaaaaaaaaaaaaaaaaaaaaaaaaaaaaaaaaaaaaaaaaaaaaaaa..."
    ∧ ("aaaaaaaaaaaaaaaaaaaaaaaaaaaaaaaaaaaaaaaaaaaaaaaaaa..." : String)
      ≠ "aaaaaaaaaaaaaaaaaaaaaaaaaaaaaaaaaaaaaaaaaaaaaaaaaabbbbbbbbb" := by
  refine ⟨?_, ?_, by decide⟩
  · have h := save_question_echo ⟨some "db", none, some "tok"⟩ "2025-01-01"
      ⟨200, [], "ok"⟩ "short question" "A" "S" [] (by decide) (by decide) rfl
    simpa using h
  · have h := save_question_echo ⟨some "db", none, some "tok"⟩ "2025-01-01"
      ⟨200, [], "ok"⟩ "aaaaaaaaaaaaaaaaaaaaaaaaaaaaaaaaaaaaaaaaaaaaaaaaaabbbbbbbbb"
      "A" "S" [] (by decide) (by decide) rfl
    simpa using h

/-- C10: the database id resolution prefers `NOTION_QA_DATABASE_ID` and falls
back to `NOTION_DATABASE_ID` only when the former is absent (falsy), and the
database id is checked before the API token: when both are missing the
returned error names the database id variables and does not mention the
token variable. -/
theorem database_id_resolution_order (env : NotionEnv) (now : String)
    (net : Except PyExc HttpResponse) (question answer search_query : String)
    (reddit_sources : List (List (String × String))) :
    (pyTruthy env.notion_qa_database_id = true →
      resolve_database_id env = env.notion_qa_database_id)
    ∧ (pyTruthy env.notion_qa_database_id = false →
        resolve_database_id env = env.notion_database_id)
    ∧ (pyTruthy (resolve_database_id env) = false →
        pyTruthy env.notion_api_token = false →
        (save_reddit_qa_to_notion env now net question answer search_query
            reddit_sources).1
          = SaveResult.err
              "NOTION_QA_DATABASE_ID or NOTION_DATABASE_ID environment variable not set"
          ∧ ¬ ("NOTION_API_TOKEN".toList <:+:
              "NOTION_QA_DATABASE_ID or NOTION_DATABASE_ID environment variable not set".toList)) := by
  refine ⟨?_, ?_, ?_⟩
  · intro h
    simp [resolve_database_id, pyOr, h]
  · intro h
    simp [resolve_database_id, pyOr, h]
  · intro hdb htok
    refine ⟨?_, by decide⟩
    simp [save_reddit_qa_to_notion, hdb]

/-- Witness for C10 at concrete inputs: with both database id variables and
the token missing, the returned error is the database id message. -/
theorem database_id_resolution_order_witness :
    (save_reddit_qa_to_notion ⟨none, none, none⟩ "2025-01-01"
        (Except.ok ⟨200, [], "unreached"⟩) "Q" "A" "S" []).1
      = SaveResult.err
          "NOTION_QA_DATABASE_ID or NOTION_DATABASE_ID environment variable not set" :=
  ((database_id_resolution_order ⟨none, none, none⟩ "2025-01-01"
      (Except.ok ⟨200, [], "unreached"⟩) "Q" "A" "S" []).2.2 (by decide) (by decide)).1

/-- C6 (amended): every fetch error record carries the raw message, the
exception class name, the two diagnostic booleans, and the HTTP status,
headers and first 500 body characters exactly when the exception carries a
response; but the request parameters recorded differ per operation:
`get_top_subreddit_posts` records the subreddits and the time filter,
`search_posts` records only the subreddits, and `search_reddit` records no
request parameter — the search query is never recorded. -/
theorem error_record_fields (env : RedditEnv) (subreddits time_filter : String) (e : PyExc) :
    jget (topErrorDetails env subreddits time_filter e) "error" = some (JVal.s e.msg)
    ∧ jget (topErrorDetails env subreddits time_filter e) "error_type"
        = some (JVal.s e.excName)
    ∧ jget (topErrorDetails env subreddits time_filter e) "subreddits"
        = some (JVal.s subreddits)
    ∧ jget (topErrorDetails env subreddits time_filter e) "time_filter"
        = some (JVal.s time_filter)
    ∧ jget (topErrorDetails env subreddits time_filter e) "reddit_read_only"
        = some (JVal.b env.read_only)
    ∧ jget (topErrorDetails env subreddits time_filter e) "client_id_exists"
        = some (JVal.b (pyTruthy env.client_id))
    ∧ jget (topErrorDetails env subreddits time_filter e) "http_status"
        = e.response.map (fun r => JVal.i r.status_code)
    ∧ jget (topErrorDetails env subreddits time_filter e) "response_headers"
        = e.response.map (fun r => JVal.dict (r.headers.map (fun kv => (kv.1, JVal.s kv.2))))
    ∧ jget (topErrorDetails env subreddits time_filter e) "response_body"
        = e.response.map (fun r => JVal.s (r.text.take 500))
    ∧ jget (searchPostsErrorDetails env subreddits e) "error" = some (JVal.s e.msg)
    ∧ jget (searchPostsErrorDetails env subreddits e) "error_type"
        = some (JVal.s e.excName)
    ∧ jget (searchPostsErrorDetails env subreddits e) "subreddits"
        = some (JVal.s subreddits)
    ∧ jget (searchPostsErrorDetails env subreddits e) "query" = none
    ∧ jget (searchPostsErrorDetails env subreddits e) "time_filter" = none
    ∧ jget (searchPostsErrorDetails env subreddits e) "reddit_read_only"
        = some (JVal.b env.read_only)
    ∧ jget (searchPostsErrorDetails env subreddits e) "client_id_exists"
        = some (JVal.b (pyTruthy env.client_id))
    ∧ jget (searchPostsErrorDetails env subreddits e) "http_status"
        = e.response.map (fun r => JVal.i r.status_code)
    ∧ jget (searchPostsErrorDetails env subreddits e) "response_headers"
        = e.response.map (fun r => JVal.dict (r.headers.map (fun kv => (kv.1, JVal.s kv.2))))
    ∧ jget (searchPostsErrorDetails env subreddits e) "response_body"
        = e.response.map (fun r => JVal.s (r.text.take 500))
    ∧ jget (searchRedditErrorDetails env e) "error" = some (JVal.s e.msg)
    ∧ jget (searchRedditErrorDetails env e) "error_type" = some (JVal.s e.excName)
    ∧ jget (searchRedditErrorDetails env e) "subreddits" = none
    ∧ jget (searchRedditErrorDetails env e) "query" = none
    ∧ jget (searchRedditErrorDetails env e) "reddit_read_only"
        = some (JVal.b env.read_only)
    ∧ jget (searchRedditErrorDetails env e) "client_id_exists"
        = some (JVal.b (pyTruthy env.client_id))
    ∧ jget (searchRedditErrorDetails env e) "http_status"
        = e.response.map (fun r => JVal.i r.status_code)
    ∧ jget (searchRedditErrorDetails env e) "response_headers"
        = e.response.map (fun r => JVal.dict (r.headers.map (fun kv => (kv.1, JVal.s kv.2))))
    ∧ jget (searchRedditErrorDetails env e) "response_body"
        = e.response.map (fun r => JVal.s (r.text.take 500)) := by
  obtain ⟨msg, exName, resp⟩ := e
  cases resp <;>
    exact ⟨rfl, rfl, rfl, rfl, rfl, rfl, rfl, rfl, rfl, rfl,
      rfl, rfl, rfl, rfl, rfl, rfl, rfl, rfl, rfl, rfl,
      rfl, rfl, rfl, rfl, rfl, rfl, rfl, rfl⟩

/-- Counterexample to C6 as stated: a `search_posts` failure for query
`"langchain"` returns an error record in which the query occurs nowhere (not
even as a substring of any value or key), and likewise for `search_reddit`:
the search query is not carried in the error record. -/
theorem search_error_omits_query :
    search_posts ⟨false, some "cid"⟩
        [Except.error ⟨"upstream failure", "ServerError", none⟩]
        "python" "langchain" 5 5 "relevance"
      = [searchPostsErrorRecord ⟨false, some "cid"⟩ "python"
          ⟨"upstream failure", "ServerError", none⟩]
    ∧ jmentions "langchain"
        (searchPostsErrorRecord ⟨false, some "cid"⟩ "python"
          ⟨"upstream failure", "ServerError", none⟩) = false
    ∧ search_reddit ⟨false, some "cid"⟩
        [Except.error ⟨"upstream failure", "ServerError", none⟩]
        "langchain" 5 5 "relevance"
      = [searchRedditErrorRecord ⟨false, some "cid"⟩
          ⟨"upstream failure", "ServerError", none⟩]
    ∧ jmentions "langchain"
        (searchRedditErrorRecord ⟨false, some "cid"⟩
          ⟨"upstream failure", "ServerError", none⟩) = false := by
  refine ⟨rfl, by decide, rfl, by decide⟩

/-- C7 (amended): a returned post's comments are the first `comment_limit`
bodies of the breadth-first flattening of the whole comment tree after "load
more" placeholders are removed (each placeholder contributes zero comments
and is not recursed into): all top-level comment bodies come first, but the
flattening continues into replies, so replies can appear once `comment_limit`
exceeds the number of top-level comments. -/
theorem comments_bfs_flattening (p : UpPost) (comment_limit : Int) :
    (buildPost comment_limit p).comments
      = pyTake comment_limit
          (levelBodies p.comments ++
            (commentForestList (levelChildren (replaceMore0 p.comments))).map nodeBody)
    ∧ ∀ rest, replaceMore0 (CNode.more :: rest) = replaceMore0 rest := by
  constructor
  · have h : (buildPost comment_limit p).comments
        = pyTake comment_limit
            ((commentForestList (replaceMore0 p.comments)).map nodeBody) := rfl
    rw [h, commentForestList_levels (replaceMore0 p.comments), List.map_append,
      map_nodeBody_replaceMore0]
  · intro rest
    exact replaceMore0_more rest

/-- Counterexample to C7 as stated: with one top-level comment `"c1"` that has
the reply `"r1"` and `comment_limit = 2`, the returned post's comments are
`["c1", "r1"]`, which contains the reply body `"r1"` even though the only
top-level comment body is `"c1"`. -/
theorem comments_include_reply_counterexample :
    get_top_subreddit_posts ⟨false, some "cid"⟩
        [Except.ok ⟨"T", "B", "http://u", 100, 2, "/r/x/1",
          [CNode.comment "c1" [CNode.comment "r1" []], CNode.more]⟩]
        "python" 5 2 "week"
      = [postDump ⟨"T", "B", "http://u", 100, 2,
          "https://reddit.com" ++ "/r/x/1", ["c1", "r1"]⟩]
    ∧ levelBodies [CNode.comment "c1" [CNode.comment "r1" []], CNode.more] = ["c1"]
    ∧ "r1" ∈ (["c1", "r1"] : List String)
    ∧ "r1" ∉ (["c1"] : List String) := by
  have hrm : replaceMore0 [CNode.comment "c1" [CNode.comment "r1" []], CNode.more]
      = [CNode.comment "c1" [CNode.comment "r1" []]] := by
    simp [replaceMore0]
  have hcfl : commentForestList [CNode.comment "c1" [CNode.comment "r1" []]]
      = [CNode.comment "c1" [CNode.comment "r1" []], CNode.comment "r1" []] := by
    simp [commentForestList, nodeChildren]
  have hbuild : buildPost 2 ⟨"T", "B", "http://u", 100, 2, "/r/x/1",
        [CNode.comment "c1" [CNode.comment "r1" []], CNode.more]⟩
      = ⟨"T", "B", "http://u", 100, 2, "https://reddit.com" ++ "/r/x/1", ["c1", "r1"]⟩ := by
    simp [buildPost, hrm, hcfl, pyTake, nodeBody]
  refine ⟨?_, rfl, by decide, by decide⟩
  have hlist : ([Except.ok ⟨"T", "B", "http://u", 100, 2, "/r/x/1",
        [CNode.comment "c1" [CNode.comment "r1" []], CNode.more]⟩] :
      List ListingItem).take (5 : Int).toNat
      = [Except.ok ⟨"T", "B", "http://u", 100, 2, "/r/x/1",
          [CNode.comment "c1" [CNode.comment "r1" []], CNode.more]⟩] := by
    simp
  simp [get_top_subreddit_posts, hlist, processListing, hbuild]

end RedditNotion
